import Mathlib

/-!
Verification of the core state-transition logic of the QueryUP peer-mentorship
application: account signup, query acceptance, session rating, derived user
statistics (XP, level, rating average) and the leaderboard ordering.

The state is a snapshot of four collections (users, queries, sessions,
notifications).  Every operation is a pure function from a snapshot to a new
snapshot, mirroring the single-actor, whole-snapshot-replacement execution
model of the source.  Timestamps are milliseconds as natural numbers; the
randomly generated identifiers of the source are passed in as explicit
parameters.  JavaScript string operations are modelled on the character lists
of the strings involved.
-/

namespace QueryUP

/-- Model of the JavaScript suffix test used on emails: a suffix test on the
character sequence of the string. -/
def strEndsWith (s suf : String) : Bool :=
  suf.toList.isSuffixOf s.toList

/-- Model of the default display name derived from an email: the characters
before the first at-sign, with every dot replaced by a space. -/
def defaultName (email : String) : String :=
  String.mk ((email.toList.takeWhile (fun c => c != '@')).map
    (fun c => if c == '.' then ' ' else c))

/-- A registered participant. -/
structure User where
  id : String
  email : String
  password : String
  name : String
  year : Option String
  branch : Option String
  strongSubjects : List String
  bio : String
  avatar : Option String
  role : String
  xp : Int
  level : Nat
  ratingAvg : Rat
  ratingCount : Nat
  isBlocked : Bool
  deriving DecidableEq

/-- A request for help posted by a student. -/
structure Query where
  id : String
  title : String
  description : String
  subjectTags : List String
  preferredMentorType : String
  preferredMode : String
  timePreference : String
  status : String
  createdAt : Nat
  askerId : String
  deriving DecidableEq

/-- A scheduled mentoring meeting, created by accepting a query. -/
structure Session where
  id : String
  queryId : String
  mentorId : String
  menteeId : String
  dateTime : Nat
  mode : String
  locationOrLink : String
  status : String
  ratingForMentor : Option Int
  ratingForMentee : Option Int
  deriving DecidableEq

/-- An informational record created when a query is accepted. -/
structure Notification where
  id : String
  userId : String
  message : String
  read : Bool
  createdAt : Nat
  deriving DecidableEq

/-- The whole persisted state snapshot. -/
structure AppState where
  users : List User
  queries : List Query
  sessions : List Session
  notifications : List Notification
  deriving DecidableEq

/-- One row of the XP level table: a level and an inclusive XP range, where
an absent upper bound models the unbounded top tier. -/
structure XpLevel where
  level : Nat
  min : Int
  max : Option Int
  deriving DecidableEq

/-- The fixed XP breakpoint table of the source. -/
def XP_LEVELS : List XpLevel :=
  [⟨1, 0, some 99⟩, ⟨2, 100, some 299⟩, ⟨3, 300, some 699⟩,
   ⟨4, 700, some 1499⟩, ⟨5, 1500, none⟩]

/-- The level of an XP amount: the first table row whose inclusive range
contains it, with fallback level 1 when no row matches. -/
def computeLevel (xp : Int) : Nat :=
  match XP_LEVELS.find? (fun l =>
      decide (l.min ≤ xp) &&
        (match l.max with
         | some m => decide (xp ≤ m)
         | none => true)) with
  | some l => l.level
  | none => 1

/-- Result of a signup attempt.  The two failure cases raise user-visible
errors in the source; success appends the new user. -/
inductive SignupResult where
  | validationError
  | duplicateAccount
  | ok
  deriving DecidableEq

/-- Signup: rejects emails without the institutional domain suffix, rejects
duplicate emails, and otherwise appends a fresh user whose role is admin
exactly when the user collection was empty. -/
def handleSignup (st : AppState) (email password newId : String) :
    SignupResult × AppState :=
  if !(strEndsWith email "@pccoepune.org") then
    (SignupResult.validationError, st)
  else if st.users.any (fun u => u.email == email) then
    (SignupResult.duplicateAccount, st)
  else
    let newUser : User :=
      { id := newId
        email := email
        password := password
        name := defaultName email
        year := none
        branch := none
        strongSubjects := []
        bio := ""
        avatar := none
        role := if st.users.length == 0 then "admin" else "student"
        xp := 0
        level := 1
        ratingAvg := 0
        ratingCount := 0
        isBlocked := false }
    (SignupResult.ok, { st with users := st.users ++ [newUser] })

/-- Posting a query: a fresh open query is prepended to the query list. -/
def createQuery (st : AppState) (currentUser : User)
    (title description : String) (subjectTags : List String)
    (preferredMentorType preferredMode timePreference : String)
    (now : Nat) (newId : String) : AppState :=
  { st with queries :=
      { id := newId
        title := title
        description := description
        subjectTags := subjectTags
        preferredMentorType := preferredMentorType
        preferredMode := preferredMode
        timePreference := timePreference
        status := "Open"
        createdAt := now
        askerId := currentUser.id } :: st.queries }

/-- Outcome of an acceptance attempt.  An unknown query id is a silent no-op;
the two error cases raise user-visible errors; success performs the combined
update. -/
inductive AcceptResult where
  | noQuery
  | selfAccept
  | alreadyMentored
  | ok
  deriving DecidableEq

/-- Accepting a query: looks the query up by id, rejects self-acceptance and
queries that already have a session, and otherwise in one state update
appends the auto-scheduled confirmed session, flips the query to
In Progress, and appends a notification to the asker. -/
def acceptQuery (st : AppState) (currentUser : User) (queryId : String)
    (now : Nat) (sessionId notifId : String) : AcceptResult × AppState :=
  match st.queries.find? (fun q => q.id == queryId) with
  | none => (AcceptResult.noQuery, st)
  | some q =>
    if q.askerId == currentUser.id then
      (AcceptResult.selfAccept, st)
    else
      match st.sessions.find? (fun s => s.queryId == queryId) with
      | some _ => (AcceptResult.alreadyMentored, st)
      | none =>
        let newSession : Session :=
          { id := sessionId
            queryId := queryId
            mentorId := currentUser.id
            menteeId := q.askerId
            dateTime := now + 3600000
            mode := if q.preferredMode == "Offline" then "Offline" else "Online"
            locationOrLink :=
              if q.preferredMode == "Offline" then "PCCOE Library"
              else "https://meet.google.com/example"
            status := "Confirmed"
            ratingForMentor := none
            ratingForMentee := none }
        let newNotif : Notification :=
          { id := notifId
            userId := q.askerId
            message := "Your query \"" ++ q.title ++
              "\" has been accepted by " ++ currentUser.name ++ "."
            read := false
            createdAt := now }
        (AcceptResult.ok,
         { st with
            sessions := st.sessions ++ [newSession]
            queries := st.queries.map (fun qq =>
              if qq.id == queryId then { qq with status := "In Progress" } else qq)
            notifications := st.notifications ++ [newNotif] })

/-- Marking a session outcome: sets the status of the matching session to
Completed or No-show, with no guard on the previous status. -/
def markSessionComplete (st : AppState) (sessionId : String)
    (didHappen : Bool) : AppState :=
  { st with sessions := st.sessions.map (fun s =>
      if s.id == sessionId then
        { s with status := if didHappen then "Completed" else "No-show" }
      else s) }

/-- The sessions that feed the statistics of a user: mentored by the user,
completed, and carrying a mentor rating. -/
def mentorRatedSessions (sessions : List Session) (userId : String) :
    List Session :=
  sessions.filter (fun s =>
    s.mentorId == userId && s.status == "Completed" && s.ratingForMentor.isSome)

/-- Recomputing the statistics of a user from scratch over the session
collection: XP, rating sum, rating count, rating average and level, written
into the matching user only. -/
def updateUserStats (st : AppState) (userId : String) : AppState :=
  let sessionsAsMentor := mentorRatedSessions st.sessions userId
  let xp : Int := sessionsAsMentor.foldl
    (fun acc s => acc + s.ratingForMentor.getD 0 * 10) 0
  let ratingSum : Int := sessionsAsMentor.foldl
    (fun acc s => acc + s.ratingForMentor.getD 0) 0
  let ratingCount : Nat := sessionsAsMentor.length
  let ratingAvg : Rat :=
    if ratingCount == 0 then 0 else (ratingSum : Rat) / (ratingCount : Rat)
  let level : Nat := computeLevel xp
  { st with users := st.users.map (fun u =>
      if u.id == userId then
        { u with xp := xp, ratingAvg := ratingAvg,
                 ratingCount := ratingCount, level := level }
      else u) }

/-- Rating a session: writes the chosen rating field of the matching session,
then, for a mentor rating on a session found in the pre-call state,
synchronously recomputes the statistics of that mentor over the updated
sessions. -/
def rateSession (st : AppState) (sessionId : String) (ratingValue : Int)
    (forMentor : Bool) : AppState :=
  let nextSessions := st.sessions.map (fun s =>
    if s.id == sessionId then
      if forMentor then { s with ratingForMentor := some ratingValue }
      else { s with ratingForMentee := some ratingValue }
    else s)
  let st1 : AppState := { st with sessions := nextSessions }
  match st.sessions.find? (fun s => s.id == sessionId) with
  | some s => if forMentor then updateUserStats st1 s.mentorId else st1
  | none => st1

/-- The number of completed sessions a user mentored, the third leaderboard
key. -/
def completedMentorSessionCount (st : AppState) (uid : String) : Nat :=
  (st.sessions.filter (fun s => s.mentorId == uid && s.status == "Completed")).length

/-- The leaderboard comparison as a boolean "sorts no later than" relation:
XP descending, then rating average descending, then completed mentor-session
count descending, then user id ascending. -/
def lbLe (st : AppState) (a b : User) : Bool :=
  if a.xp = b.xp then
    if a.ratingAvg = b.ratingAvg then
      if completedMentorSessionCount st a.id = completedMentorSessionCount st b.id then
        decide (a.id ≤ b.id)
      else decide (completedMentorSessionCount st b.id < completedMentorSessionCount st a.id)
    else decide (b.ratingAvg < a.ratingAvg)
  else decide (b.xp < a.xp)

/-- The leaderboard: all users sorted by the leaderboard comparison. -/
def leaderboard (st : AppState) : List User :=
  st.users.mergeSort (lbLe st)

/-! Specification-level restatements of the derived statistics, written with
`List.map` and `List.sum` rather than the fold of the implementation, for use
in the statements of the statistics theorems. -/

/-- XP as the spec states it: sum of mentor ratings times ten over the
completed rated mentor sessions. -/
def specXp (sessions : List Session) (uid : String) : Int :=
  ((mentorRatedSessions sessions uid).map (fun s => s.ratingForMentor.getD 0 * 10)).sum

/-- Sum of the mentor ratings over the completed rated mentor sessions. -/
def specRatingSum (sessions : List Session) (uid : String) : Int :=
  ((mentorRatedSessions sessions uid).map (fun s => s.ratingForMentor.getD 0)).sum

/-- Number of completed rated mentor sessions. -/
def specRatingCount (sessions : List Session) (uid : String) : Nat :=
  (mentorRatedSessions sessions uid).length

/-- Rating average as the spec states it: rating sum over rating count, and
zero when the count is zero. -/
def specRatingAvg (sessions : List Session) (uid : String) : Rat :=
  if specRatingCount sessions uid = 0 then 0
  else (specRatingSum sessions uid : Rat) / (specRatingCount sessions uid : Rat)

/-! A concrete scenario, used to exercise the theorems on explicit inputs:
two users sign up, the first posts a query, the second accepts it, and the
resulting session is rated twice while still in its initial Confirmed
status. -/

/-- The empty initial state. -/
def exSt0 : AppState := ⟨[], [], [], []⟩

/-- State after the first signup (the admin, id u1). -/
def exSt1 : AppState := (handleSignup exSt0 "asha.k@pccoepune.org" "pw1" "u1").2

/-- State after the second signup (a student, id u2). -/
def exSt2 : AppState := (handleSignup exSt1 "ben@pccoepune.org" "pw2" "u2").2

/-- The first registered user, as created by the signup above. -/
def exUserA : User :=
  { id := "u1", email := "asha.k@pccoepune.org", password := "pw1",
    name := "asha k", year := none, branch := none, strongSubjects := [],
    bio := "", avatar := none, role := "admin", xp := 0, level := 1,
    ratingAvg := 0, ratingCount := 0, isBlocked := false }

/-- The second registered user, as created by the signup above. -/
def exUserB : User :=
  { id := "u2", email := "ben@pccoepune.org", password := "pw2",
    name := "ben", year := none, branch := none, strongSubjects := [],
    bio := "", avatar := none, role := "student", xp := 0, level := 1,
    ratingAvg := 0, ratingCount := 0, isBlocked := false }

/-- State after the first user posts a query q1. -/
def exSt3 : AppState :=
  createQuery exSt2 exUserA "Help with DSA" "Need help with heaps" ["DSA"]
    "Any" "Online" "Evening" 100 "q1"

/-- The query q1 as posted. -/
def exQueryOpen : Query :=
  { id := "q1", title := "Help with DSA", description := "Need help with heaps",
    subjectTags := ["DSA"], preferredMentorType := "Any",
    preferredMode := "Online", timePreference := "Evening",
    status := "Open", createdAt := 100, askerId := "u1" }

/-- State after the second user accepts q1: one confirmed session s1. -/
def exSt4 : AppState := (acceptQuery exSt3 exUserB "q1" 200 "s1" "n1").2

/-- The query q1 after acceptance, as found in `exSt4`. -/
def exQueryInProgress : Query := { exQueryOpen with status := "In Progress" }

/-- State after rating the still-Confirmed session s1 with 5 for the
mentor. -/
def exSt5 : AppState := rateSession exSt4 "s1" 5 true

/-- State after rating s1 again with 3 for the mentor, overwriting the
previous rating. -/
def exSt6 : AppState := rateSession exSt5 "s1" 3 true

/-- State after marking s1 completed, starting from the accepted state. -/
def exSt7 : AppState := markSessionComplete exSt4 "s1" true

/-- State after rating the completed session s1 with 5 for the mentor. -/
def exSt8 : AppState := rateSession exSt7 "s1" 5 true

/-- The session s1 as it stands in `exSt7`: completed, not yet rated. -/
def exSessionDone : Session :=
  { id := "s1", queryId := "q1", mentorId := "u2", menteeId := "u1",
    dateTime := 3600200, mode := "Online",
    locationOrLink := "https://meet.google.com/example",
    status := "Completed", ratingForMentor := none, ratingForMentee := none }

/-- The mentor u2 as stored after the completed session is rated 5: fifty
XP, one rating, average five, still level one. -/
def exMentorRated : User :=
  { exUserB with xp := 50, ratingAvg := 5, ratingCount := 1, level := 1 }

end QueryUP

namespace QueryUP

/-! ### Helper lemmas -/

/-- Closed form of `computeLevel`: the breakpoint table read as nested
interval tests. -/
theorem computeLevel_eq (xp : Int) :
    computeLevel xp =
      if xp ≤ 99 then 1
      else if xp ≤ 299 then 2
      else if xp ≤ 699 then 3
      else if xp ≤ 1499 then 4
      else 5 := by
  unfold computeLevel XP_LEVELS
  split_ifs with h1 h2 h3 h4
  · rcases le_or_lt 0 xp with h0 | h0
    · rw [List.find?_cons_of_pos _ (by simp; omega)]
    · rw [List.find?_cons_of_neg _ (by simp; omega),
        List.find?_cons_of_neg _ (by simp; omega),
        List.find?_cons_of_neg _ (by simp; omega),
        List.find?_cons_of_neg _ (by simp; omega),
        List.find?_cons_of_neg _ (by simp; omega)]
      rfl
  · rw [List.find?_cons_of_neg _ (by simp; omega),
      List.find?_cons_of_pos _ (by simp; omega)]
  · rw [List.find?_cons_of_neg _ (by simp; omega),
      List.find?_cons_of_neg _ (by simp; omega),
      List.find?_cons_of_pos _ (by simp; omega)]
  · rw [List.find?_cons_of_neg _ (by simp; omega),
      List.find?_cons_of_neg _ (by simp; omega),
      List.find?_cons_of_neg _ (by simp; omega),
      List.find?_cons_of_pos _ (by simp; omega)]
  · rw [List.find?_cons_of_neg _ (by simp; omega),
      List.find?_cons_of_neg _ (by simp; omega),
      List.find?_cons_of_neg _ (by simp; omega),
      List.find?_cons_of_neg _ (by simp; omega),
      List.find?_cons_of_pos _ (by simp; omega)]

/-- C4: for all xp ≥ 0, `computeLevel xp` lies in [1,5] and is monotone in
xp, and it takes the stated values at 0, 99, 100, 1499 and 1500. -/
theorem computeLevel_range_mono :
    (∀ xp : Int, 0 ≤ xp → 1 ≤ computeLevel xp ∧ computeLevel xp ≤ 5) ∧
    (∀ x y : Int, 0 ≤ x → x ≤ y → computeLevel x ≤ computeLevel y) ∧
    computeLevel 0 = 1 ∧ computeLevel 99 = 1 ∧ computeLevel 100 = 2 ∧
    computeLevel 1499 = 4 ∧ computeLevel 1500 = 5 := by
  refine ⟨?_, ?_, by decide, by decide, by decide, by decide, by decide⟩
  · intro xp _
    rw [computeLevel_eq]
    split_ifs <;> omega
  · intro x y _ hxy
    rw [computeLevel_eq, computeLevel_eq]
    split_ifs <;> omega

/-- Witness for C4 at concrete XP values. -/
theorem computeLevel_range_mono_witness :
    (1 ≤ computeLevel 250 ∧ computeLevel 250 ≤ 5) ∧
    computeLevel 150 ≤ computeLevel 800 :=
  ⟨computeLevel_range_mono.1 250 (by decide),
   computeLevel_range_mono.2.1 150 800 (by decide) (by decide)⟩

end QueryUP

namespace QueryUP

/-- C6: signup fails with a validation error when the email lacks the
institutional domain suffix, fails with a duplicate-account error when a
user with that email exists, and otherwise creates exactly one new user
whose role is admin iff the user collection was empty, with zeroed
gamification fields and isBlocked false; the failures create no user. -/
theorem handleSignup_spec (st : AppState) (email password newId : String) :
    (strEndsWith email "@pccoepune.org" = false →
      handleSignup st email password newId = (SignupResult.validationError, st)) ∧
    (strEndsWith email "@pccoepune.org" = true →
      (∃ u ∈ st.users, u.email = email) →
      handleSignup st email password newId = (SignupResult.duplicateAccount, st)) ∧
    (strEndsWith email "@pccoepune.org" = true →
      (∀ u ∈ st.users, u.email ≠ email) →
      handleSignup st email password newId =
        (SignupResult.ok,
         { st with users := st.users ++
            [{ id := newId, email := email, password := password,
               name := defaultName email, year := none, branch := none,
               strongSubjects := [], bio := "", avatar := none,
               role := if st.users = [] then "admin" else "student",
               xp := 0, level := 1, ratingAvg := 0, ratingCount := 0,
               isBlocked := false }] })) := by
  refine ⟨?_, ?_, ?_⟩
  · intro h
    simp [handleSignup, h]
  · intro h hdup
    obtain ⟨u, hu, he⟩ := hdup
    have hany : st.users.any (fun u => u.email == email) = true :=
      List.any_eq_true.2 ⟨u, hu, by simp [he]⟩
    simp [handleSignup, h, hany]
  · intro h hnone
    have hany : st.users.any (fun u => u.email == email) = false := by
      rw [List.any_eq_false]
      intro u hu
      simp [hnone u hu]
    simp [handleSignup, h, hany]

/-- Witness for C6: the first signup on the empty state creates the admin
user, and a second signup with a fresh email creates a student. -/
theorem handleSignup_spec_witness :
    handleSignup exSt0 "asha.k@pccoepune.org" "pw1" "u1" =
      (SignupResult.ok, { exSt0 with users := exSt0.users ++ [exUserA] }) ∧
    handleSignup exSt1 "ben@pccoepune.org" "pw2" "u2" =
      (SignupResult.ok, { exSt1 with users := exSt1.users ++ [exUserB] }) := by
  constructor
  · have h := (handleSignup_spec exSt0 "asha.k@pccoepune.org" "pw1" "u1").2.2
      (by decide) (by decide)
    rw [h]
    decide
  · have h := (handleSignup_spec exSt1 "ben@pccoepune.org" "pw2" "u2").2.2
      (by decide) (by decide)
    rw [h]
    decide

/-- C1: accepting an open query by a non-asker, when no session references
it, atomically appends exactly one confirmed session (mentor the accepting
user, mentee the asker, scheduled one hour after now, mode and location
derived from the query preference), flips the query to In Progress, and
appends exactly one notification to the asker; nothing else changes. -/
theorem acceptQuery_success (st : AppState) (cu : User) (queryId : String)
    (now : Nat) (sid nid : String) (q : Query)
    (hq : st.queries.find? (fun qq => qq.id == queryId) = some q)
    (hself : q.askerId ≠ cu.id)
    (hs : ∀ s ∈ st.sessions, s.queryId ≠ queryId) :
    acceptQuery st cu queryId now sid nid =
      (AcceptResult.ok,
       { st with
          sessions := st.sessions ++
            [{ id := sid, queryId := queryId, mentorId := cu.id,
               menteeId := q.askerId, dateTime := now + 3600000,
               mode := if q.preferredMode = "Offline" then "Offline" else "Online",
               locationOrLink :=
                 if q.preferredMode = "Offline" then "PCCOE Library"
                 else "https://meet.google.com/example",
               status := "Confirmed", ratingForMentor := none,
               ratingForMentee := none }],
          queries := st.queries.map (fun qq =>
            if qq.id = queryId then { qq with status := "In Progress" } else qq),
          notifications := st.notifications ++
            [{ id := nid, userId := q.askerId,
               message := "Your query \"" ++ q.title ++
                 "\" has been accepted by " ++ cu.name ++ ".",
               read := false, createdAt := now }] }) := by
  have hfn : st.sessions.find? (fun s => s.queryId == queryId) = none := by
    rw [List.find?_eq_none]
    intro s hsm
    simp [hs s hsm]
  simp [acceptQuery, hq, hfn, hself]

/-- Witness for C1: the concrete acceptance of q1 by the second user. -/
theorem acceptQuery_success_witness :
    (acceptQuery exSt3 exUserB "q1" 200 "s1" "n1").1 = AcceptResult.ok ∧
    (acceptQuery exSt3 exUserB "q1" 200 "s1" "n1").2.sessions.map
      (fun s => (s.mentorId, s.menteeId, s.status, s.dateTime)) =
      [("u2", "u1", "Confirmed", 3600200)] := by
  have h := acceptQuery_success exSt3 exUserB "q1" 200 "s1" "n1" exQueryOpen
    (by decide) (by decide) (by decide)
  rw [h]
  exact ⟨rfl, by decide⟩

/-- C9: accepting a query whose asker is the accepting user always fails
with the self-accept error and leaves the state unchanged. -/
theorem acceptQuery_selfAccept (st : AppState) (cu : User) (queryId : String)
    (now : Nat) (sid nid : String) (q : Query)
    (hq : st.queries.find? (fun qq => qq.id == queryId) = some q)
    (hself : q.askerId = cu.id) :
    acceptQuery st cu queryId now sid nid = (AcceptResult.selfAccept, st) := by
  simp [acceptQuery, hq, hself]

/-- Witness for C9: the asker tries to accept their own query q1. -/
theorem acceptQuery_selfAccept_witness :
    acceptQuery exSt3 exUserA "q1" 300 "s9" "n9" = (AcceptResult.selfAccept, exSt3) :=
  acceptQuery_selfAccept exSt3 exUserA "q1" 300 "s9" "n9" exQueryOpen
    (by decide) (by decide)

/-- C10: accepting with a query id that matches no query is a silent no-op
with an unchanged state. -/
theorem acceptQuery_noQuery (st : AppState) (cu : User) (queryId : String)
    (now : Nat) (sid nid : String)
    (h : st.queries.find? (fun qq => qq.id == queryId) = none) :
    acceptQuery st cu queryId now sid nid = (AcceptResult.noQuery, st) := by
  simp [acceptQuery, h]

/-- Witness for C10: accepting an unknown query id on a populated state. -/
theorem acceptQuery_noQuery_witness :
    acceptQuery exSt3 exUserB "zzz" 300 "s9" "n9" = (AcceptResult.noQuery, exSt3) :=
  acceptQuery_noQuery exSt3 exUserB "zzz" 300 "s9" "n9" (by decide)

end QueryUP

namespace QueryUP

/-- C3 (amended): once a session references a query, a further acceptance
attempt by any user other than the asker fails with the already-mentored
error; an attempt by the asker also fails, with the self-accept error, which
is checked first.  In both cases the state is completely unchanged. -/
theorem acceptQuery_alreadyMentored (st : AppState) (cu : User)
    (queryId : String) (now : Nat) (sid nid : String) (q : Query)
    (hq : st.queries.find? (fun qq => qq.id == queryId) = some q)
    (hex : ∃ s ∈ st.sessions, s.queryId = queryId) :
    (q.askerId ≠ cu.id →
      acceptQuery st cu queryId now sid nid = (AcceptResult.alreadyMentored, st)) ∧
    (q.askerId = cu.id →
      acceptQuery st cu queryId now sid nid = (AcceptResult.selfAccept, st)) := by
  have hfs : (st.sessions.find? (fun s => s.queryId == queryId)).isSome := by
    rw [List.find?_isSome]
    obtain ⟨s, hsm, he⟩ := hex
    exact ⟨s, hsm, by simp [he]⟩
  obtain ⟨s0, hfs0⟩ := Option.isSome_iff_exists.1 hfs
  constructor
  · intro hne
    simp [acceptQuery, hq, hfs0, hne]
  · intro he
    simp [acceptQuery, hq, he]

/-- Witness for C3: a second acceptance of q1 by a third party fails with
the already-mentored error and leaves the state unchanged. -/
theorem acceptQuery_alreadyMentored_witness :
    acceptQuery exSt4 exUserB "q1" 400 "s9" "n9" =
      (AcceptResult.alreadyMentored, exSt4) :=
  (acceptQuery_alreadyMentored exSt4 exUserB "q1" 400 "s9" "n9"
      exQueryInProgress (by decide) (by decide)).1 (by decide)

/-- Counterexample to C3 as stated: in a state where a session already
references q1, the acceptance attempt by the asker themselves fails with the
self-accept error, not the already-mentored error. -/
theorem acceptQuery_alreadyMentored_counterexample :
    exSt4.sessions.map Session.queryId = ["q1"] ∧
    (acceptQuery exSt4 exUserA "q1" 400 "s9" "n9").1 = AcceptResult.selfAccept ∧
    AcceptResult.selfAccept ≠ AcceptResult.alreadyMentored := by
  refine ⟨by decide, by decide, by decide⟩

end QueryUP

namespace QueryUP

/-- Folding addition of a projected value equals the initial value plus the
sum of the projections. -/
theorem foldl_add_eq_sum (f : Session → Int) :
    ∀ (l : List Session) (init : Int),
      l.foldl (fun acc s => acc + f s) init = init + (l.map f).sum
  | [], init => by simp
  | s :: l, init => by
    simp [List.foldl_cons, foldl_add_eq_sum f l]
    ring

/-- The statistics recomputation written as one state equation: the matching
user gets the spec-level XP, rating average, rating count and level, every
other user and every other collection is untouched. -/
theorem updateUserStats_eq (st : AppState) (uid : String) :
    updateUserStats st uid =
      { st with users := st.users.map (fun u =>
          if u.id == uid then
            { u with xp := specXp st.sessions uid,
                     ratingAvg := specRatingAvg st.sessions uid,
                     ratingCount := specRatingCount st.sessions uid,
                     level := computeLevel (specXp st.sessions uid) }
          else u) } := by
  unfold updateUserStats specXp specRatingAvg specRatingSum specRatingCount
  simp [foldl_add_eq_sum]

/-- C2: recomputing the statistics of a user sets the xp, rating count,
rating average and level of that user to a pure function of the session
collection (sum
of mentor ratings times ten, count, quotient or zero, and the breakpoint
level of the xp), and changes no other user and no query, session or
notification. -/
theorem updateUserStats_spec (st : AppState) (uid : String) :
    updateUserStats st uid =
      { st with users := st.users.map (fun u =>
          if u.id == uid then
            { u with xp := specXp st.sessions uid,
                     ratingAvg := specRatingAvg st.sessions uid,
                     ratingCount := specRatingCount st.sessions uid,
                     level := computeLevel (specXp st.sessions uid) }
          else u) } :=
  updateUserStats_eq st uid

end QueryUP

namespace QueryUP

/-- C8: rating the mentor side of an existing session synchronously leaves
the stored statistics of the mentor equal to the recomputation over the
post-update session collection; rating the mentee side updates only that
mentee rating of that session and leaves the statistics of every user unchanged. -/
theorem rateSession_recomputes_mentor_stats (st : AppState)
    (sessionId : String) (r : Int) (s : Session)
    (hs : st.sessions.find? (fun x => x.id == sessionId) = some s) :
    (∀ u ∈ (rateSession st sessionId r true).users, u.id = s.mentorId →
      u.xp = specXp (rateSession st sessionId r true).sessions s.mentorId ∧
      u.ratingAvg = specRatingAvg (rateSession st sessionId r true).sessions s.mentorId ∧
      u.ratingCount = specRatingCount (rateSession st sessionId r true).sessions s.mentorId ∧
      u.level = computeLevel (specXp (rateSession st sessionId r true).sessions s.mentorId)) ∧
    (rateSession st sessionId r false).users = st.users ∧
    (rateSession st sessionId r false).sessions =
      st.sessions.map (fun x =>
        if x.id = sessionId then { x with ratingForMentee := some r } else x) := by
  refine ⟨?_, ?_, ?_⟩
  · have hrw : rateSession st sessionId r true =
        updateUserStats { st with sessions := st.sessions.map (fun x =>
          if x.id == sessionId then { x with ratingForMentor := some r } else x) }
          s.mentorId := by
      unfold rateSession
      rw [hs]
      simp
    rw [hrw, updateUserStats_eq]
    intro u hu hid
    simp only [List.mem_map] at hu
    obtain ⟨u0, hu0, rfl⟩ := hu
    by_cases h0 : u0.id == s.mentorId
    · simp [h0]
    · simp only [h0, if_neg] at hid ⊢
      simp at h0
      exact absurd hid h0
  · unfold rateSession
    rw [hs]
    rfl
  · unfold rateSession
    rw [hs]
    simp

end QueryUP

namespace QueryUP

/-- Witness for C8: rating the completed session with 5 gives the mentor
fifty XP, both through the theorem and by direct evaluation. -/
theorem rateSession_recomputes_mentor_stats_witness :
    specXp (rateSession exSt7 "s1" 5 true).sessions "u2" = 50 ∧
    (rateSession exSt7 "s1" 5 true).users.map User.xp = [0, 50] := by
  have hmem := List.get_mem (rateSession exSt7 "s1" 5 true).users 1 (by decide)
  have hid : ((rateSession exSt7 "s1" 5 true).users.get ⟨1, by decide⟩).id =
      exSessionDone.mentorId := by decide
  have h : ((rateSession exSt7 "s1" 5 true).users.get ⟨1, by decide⟩).xp =
      specXp (rateSession exSt7 "s1" 5 true).sessions "u2" :=
    ((rateSession_recomputes_mentor_stats exSt7 "s1" 5 exSessionDone
      (by decide)).1 _ hmem hid).1
  refine ⟨?_, by decide⟩
  rw [← h]
  decide

/-- C7 (amended): rating a session writes the targeted rating field of the
matching session unconditionally — an already-set field is overwritten and
no Completed-status guard applies — and changes no other session and not the
other rating field of the same session. -/
theorem rateSession_sets_field (st : AppState) (sessionId : String) (r : Int) :
    (rateSession st sessionId r true).sessions =
      st.sessions.map (fun x =>
        if x.id = sessionId then { x with ratingForMentor := some r } else x) ∧
    (rateSession st sessionId r false).sessions =
      st.sessions.map (fun x =>
        if x.id = sessionId then { x with ratingForMentee := some r } else x) := by
  constructor
  · unfold rateSession
    cases hf : st.sessions.find? (fun x => x.id == sessionId) <;>
      simp [updateUserStats]
  · unfold rateSession
    cases hf : st.sessions.find? (fun x => x.id == sessionId) <;> simp

/-- Counterexample to C7 as stated: reachable states in which the mentor
rating of session s1 is first set while the session status is still
Confirmed, and is then overwritten by a second rating call. -/
theorem rateSession_guard_counterexample :
    exSt5.sessions.map (fun s => (s.status, s.ratingForMentor)) =
      [("Confirmed", some 5)] ∧
    exSt6.sessions.map (fun s => (s.status, s.ratingForMentor)) =
      [("Confirmed", some 3)] := by
  decide

end QueryUP

namespace QueryUP

/-- Propositional reading of the leaderboard comparison as a lexicographic
order: XP descending, rating average descending, completed mentor-session
count descending, id ascending. -/
theorem lbLe_iff (st : AppState) (a b : User) :
    lbLe st a b = true ↔
      b.xp < a.xp ∨
      (a.xp = b.xp ∧ (b.ratingAvg < a.ratingAvg ∨
        (a.ratingAvg = b.ratingAvg ∧
          (completedMentorSessionCount st b.id < completedMentorSessionCount st a.id ∨
            (completedMentorSessionCount st a.id = completedMentorSessionCount st b.id ∧
              a.id ≤ b.id))))) := by
  unfold lbLe
  split_ifs with h1 h2 h3 <;> simp_all

/-- The leaderboard comparison is transitive. -/
theorem lbLe_trans (st : AppState) (a b c : User) :
    lbLe st a b = true → lbLe st b c = true → lbLe st a c = true := by
  rw [lbLe_iff, lbLe_iff, lbLe_iff]
  rintro (h1 | ⟨e1, h1⟩) (h2 | ⟨e2, h2⟩)
  · exact Or.inl (lt_trans h2 h1)
  · exact Or.inl (by rw [← e2]; exact h1)
  · exact Or.inl (by rw [e1]; exact h2)
  · refine Or.inr ⟨e1.trans e2, ?_⟩
    rcases h1 with h1 | ⟨f1, h1⟩ <;> rcases h2 with h2 | ⟨f2, h2⟩
    · exact Or.inl (lt_trans h2 h1)
    · exact Or.inl (by rw [← f2]; exact h1)
    · exact Or.inl (by rw [f1]; exact h2)
    · refine Or.inr ⟨f1.trans f2, ?_⟩
      rcases h1 with h1 | ⟨g1, h1⟩ <;> rcases h2 with h2 | ⟨g2, h2⟩
      · exact Or.inl (lt_trans h2 h1)
      · exact Or.inl (by rw [← g2]; exact h1)
      · exact Or.inl (by rw [g1]; exact h2)
      · exact Or.inr ⟨g1.trans g2, le_trans h1 h2⟩

/-- The leaderboard comparison is total. -/
theorem lbLe_total (st : AppState) (a b : User) :
    lbLe st a b = true ∨ lbLe st b a = true := by
  rw [lbLe_iff, lbLe_iff]
  rcases lt_trichotomy a.xp b.xp with h | h | h
  · exact Or.inr (Or.inl h)
  · rcases lt_trichotomy a.ratingAvg b.ratingAvg with h2 | h2 | h2
    · exact Or.inr (Or.inr ⟨h.symm, Or.inl h2⟩)
    · rcases lt_trichotomy (completedMentorSessionCount st a.id)
        (completedMentorSessionCount st b.id) with h3 | h3 | h3
      · exact Or.inr (Or.inr ⟨h.symm, Or.inr ⟨h2.symm, Or.inl h3⟩⟩)
      · rcases le_total a.id b.id with h4 | h4
        · exact Or.inl (Or.inr ⟨h, Or.inr ⟨h2, Or.inr ⟨h3, h4⟩⟩⟩)
        · exact Or.inr (Or.inr ⟨h.symm, Or.inr ⟨h2.symm, Or.inr ⟨h3.symm, h4⟩⟩⟩)
      · exact Or.inl (Or.inr ⟨h, Or.inr ⟨h2, Or.inl h3⟩⟩)
    · exact Or.inl (Or.inr ⟨h, Or.inl h2⟩)
  · exact Or.inl (Or.inl h)

/-- C5: the leaderboard is a permutation of the user collection sorted by
the lexicographic comparison (XP desc, rating average desc, completed
mentor-session count desc, id asc); when ids are unique, any two users tied
on all three substantive metrics appear with the strictly smaller id
first. -/
theorem leaderboard_spec (st : AppState)
    (hnodup : (st.users.map User.id).Nodup) :
    (leaderboard st).Perm st.users ∧
    (leaderboard st).Pairwise (fun a b => lbLe st a b = true) ∧
    (leaderboard st).Pairwise (fun a b =>
      a.xp = b.xp → a.ratingAvg = b.ratingAvg →
      completedMentorSessionCount st a.id = completedMentorSessionCount st b.id →
      a.id < b.id) := by
  have hperm : (leaderboard st).Perm st.users :=
    List.mergeSort_perm st.users (lbLe st)
  have hsorted : (leaderboard st).Pairwise (fun a b => lbLe st a b = true) :=
    List.sorted_mergeSort
      (fun a b c hab hbc => lbLe_trans st a b c hab hbc)
      (fun a b => by rw [Bool.or_eq_true]; exact lbLe_total st a b)
      st.users
  have hids : ((leaderboard st).map User.id).Nodup :=
    ((hperm.map User.id).nodup_iff).2 hnodup
  have hne : (leaderboard st).Pairwise (fun a b => a.id ≠ b.id) :=
    List.pairwise_map.1 hids
  refine ⟨hperm, hsorted, ?_⟩
  refine (hsorted.and hne).imp ?_
  intro a b hab hxp havg hc
  obtain ⟨hle, hne2⟩ := hab
  rcases (lbLe_iff st a b).1 hle with h | ⟨_, h | ⟨_, h | ⟨_, hle2⟩⟩⟩
  · rw [hxp] at h
    exact absurd h (lt_irrefl _)
  · rw [havg] at h
    exact absurd h (lt_irrefl _)
  · rw [hc] at h
    exact absurd h (lt_irrefl _)
  · exact lt_of_le_of_ne hle2 hne2

/-- Witness for C5 at the concrete two-user state, where both users are
tied on every substantive metric. -/
theorem leaderboard_spec_witness :
    (leaderboard exSt2).Perm exSt2.users :=
  (leaderboard_spec exSt2 (by decide)).1

end QueryUP
